import Mathlib

/-!
Verification of the AI-Jumpshot-Trainer core against its specification.

This file gives a shallow embedding, in Lean 4, of the parts of the
repository that the specification's claims are about:

* `src/video/video_recorder.py` — the rolling pre-roll ring plus active
  recording (`VideoRecorder`);
* `src/video/shot_detector.py` — the pose-based shot-detection state
  machine (`ShotDetector`);
* `src/session/shot_analyzer.py` together with
  `src/storage/video_storage.py` and `src/ai/critique_generator.py` —
  the per-shot analysis pipeline (`analyzeShotSync`);
* `src/storage/metadata_manager.py` — session metadata bookkeeping
  (`add_shot_metadata`).

Conventions of the embedding:

* Python `deque(maxlen=n)` becomes a `List` together with `dequeAppend`,
  which appends on the right and drops from the left when the capacity
  would be exceeded.
* Python float literals for the detector thresholds are modelled by the
  rational numbers they denote (the claims under verification only
  involve threshold comparisons that are robust to rounding at the
  printed precision).
* Python `int(x)` (truncation toward zero) on a rational is `pytrunc`.
* `np.sqrt`-based comparisons are modelled exactly over the squared
  integer distances via `sqrtDiffGt`, which is proved equivalent to the
  corresponding comparison of real square roots (`sqrtDiffGt_iff_real`).
* Code that can raise is modelled with an explicit `CallResult`
  environment describing what each external call returns.
-/

/- Batteries marks the rational arithmetic operations `irreducible`,
which prevents `decide` from evaluating concrete runs of the embedded
code.  Restore the default reducibility (this has no effect on kernel
checking, which ignores reducibility attributes). -/
set_option allowUnsafeReducibility true
attribute [local semireducible] Rat.add Rat.mul Rat.sub Rat.inv

/-- Append on the right to a Python `deque(maxlen := cap)`: the combined
list is truncated from the left so that at most `cap` elements remain
(assuming the input already respects the capacity). -/
def dequeAppend {α : Type} (cap : ℕ) (l : List α) (x : α) : List α :=
  (l ++ [x]).drop (l.length + 1 - cap)

theorem dequeAppend_length_le {α : Type} (cap : ℕ) (l : List α) (x : α) :
    (dequeAppend cap l x).length ≤ cap := by
  simp [dequeAppend]
  omega

theorem dequeAppend_length {α : Type} (cap : ℕ) (l : List α) (x : α) :
    (dequeAppend cap l x).length = min (l.length + 1) cap := by
  simp [dequeAppend]
  omega

theorem dequeAppend_of_lt {α : Type} (cap : ℕ) (l : List α) (x : α)
    (h : l.length < cap) : dequeAppend cap l x = l ++ [x] := by
  have : l.length + 1 - cap = 0 := by omega
  simp [dequeAppend, this]

theorem dequeAppend_full {α : Type} (cap : ℕ) (l : List α) (x : α)
    (hlen : l.length = cap) (hpos : 0 < cap) :
    dequeAppend cap l x = l.tail ++ [x] := by
  cases l with
  | nil => simp at hlen; omega
  | cons a t =>
    simp [dequeAppend]
    have : t.length + 1 + 1 - cap = 1 := by simp at hlen; omega
    simp [this]

/-- Python `int(q)` on a rational: truncation toward zero. -/
def pytrunc (q : ℚ) : ℤ := Int.tdiv q.num q.den

/-! ## VideoRecorder (`src/video/video_recorder.py`)

The recorder keeps a rolling pre-roll ring (`frame_buffer`, a deque with
`maxlen = buffer_size`) and, while `is_recording`, a growing list
`current_video_frames` that is seeded from the ring by
`start_recording`. Frames are modelled by an arbitrary type `α`; a
Python argument that may be `None` is an `Option α`. -/

structure VideoRecorder (α : Type) where
  buffer_size : ℕ
  frame_buffer : List α
  is_recording : Bool
  current_video_frames : List α
deriving DecidableEq, Repr

/-- `VideoRecorder.__init__`: `buffer_size = int(buffer_seconds * fps)`,
empty ring, not recording. -/
def VideoRecorder.init (α : Type) (buffer_seconds : ℚ) (fps : ℕ) : VideoRecorder α :=
  { buffer_size := (pytrunc (buffer_seconds * fps)).toNat
    frame_buffer := []
    is_recording := false
    current_video_frames := [] }

/-- `VideoRecorder.add_frame`: if the frame is not `None`, append (a copy
of) it to the ring, evicting from the left at capacity. -/
def VideoRecorder.add_frame {α : Type} (r : VideoRecorder α) (frame : Option α) :
    VideoRecorder α :=
  match frame with
  | none => r
  | some f => { r with frame_buffer := dequeAppend r.buffer_size r.frame_buffer f }

/-- `VideoRecorder.start_recording`: set the recording flag and snapshot
the ring into `current_video_frames`. -/
def VideoRecorder.start_recording {α : Type} (r : VideoRecorder α) : VideoRecorder α :=
  { r with is_recording := true, current_video_frames := r.frame_buffer }

/-- `VideoRecorder.add_recording_frame`: append to the active recording
only when recording is on and the frame is not `None`. -/
def VideoRecorder.add_recording_frame {α : Type} (r : VideoRecorder α)
    (frame : Option α) : VideoRecorder α :=
  match frame with
  | none => r
  | some f =>
    if r.is_recording then
      { r with current_video_frames := r.current_video_frames ++ [f] }
    else r

/-- `VideoRecorder.stop_recording`: return the recorded frames, clear the
recording flag and the active list. -/
def VideoRecorder.stop_recording {α : Type} (r : VideoRecorder α) :
    List α × VideoRecorder α :=
  (r.current_video_frames,
   { r with is_recording := false, current_video_frames := [] })

/-- The recorder's public operations, for stating invariants over
arbitrary call sequences. -/
inductive RecorderOp (α : Type) where
  | observe (frame : Option α)
  | beginRec
  | appendActive (frame : Option α)
  | endRec
deriving DecidableEq, Repr

def VideoRecorder.applyOp {α : Type} (r : VideoRecorder α) :
    RecorderOp α → VideoRecorder α
  | .observe f => r.add_frame f
  | .beginRec => r.start_recording
  | .appendActive f => r.add_recording_frame f
  | .endRec => (r.stop_recording).2

def VideoRecorder.runOps {α : Type} (r : VideoRecorder α) :
    List (RecorderOp α) → VideoRecorder α
  | [] => r
  | op :: rest => (r.applyOp op).runOps rest

/-! ## MetadataManager (`src/storage/metadata_manager.py`) -/

structure ShotData where
  shot_number : ℕ
  shot_made : Bool
  video_path : String
  critique : String
deriving DecidableEq, Repr

/-- The counter fields and shot list of a session metadata record (the
string/time fields of the Python dict play no role in the claims). -/
structure SessionMetadata where
  total_shots : ℕ
  shots_made : ℕ
  shots_missed : ℕ
  shots : List ShotData
deriving DecidableEq, Repr

/-- `MetadataManager.create_session_metadata`: fresh counters and an
empty shot list. -/
def create_session_metadata : SessionMetadata :=
  { total_shots := 0, shots_made := 0, shots_missed := 0, shots := [] }

/-- `sum(1 for s in shots if s['shot_made'])`. -/
def countMade (shots : List ShotData) : ℕ :=
  (shots.filter (fun s => s.shot_made)).length

/-- `MetadataManager.add_shot_metadata`: load (or create) the session
metadata, append the new shot record, and recompute the three counters
from the shot list. -/
def add_shot_metadata (existing : Option SessionMetadata) (shot_number : ℕ)
    (shot_made : Bool) (video_path critique : String) : SessionMetadata :=
  let metadata := existing.getD create_session_metadata
  let shots := metadata.shots ++
    [{ shot_number := shot_number, shot_made := shot_made,
       video_path := video_path, critique := critique }]
  { total_shots := shots.length
    shots_made := countMade shots
    shots_missed := shots.length - countMade shots
    shots := shots }

/-! ## ShotDetector (`src/video/shot_detector.py`)

The detector consumes one frame (only its height and width matter) and
an optional pose-landmark dictionary per step.  Positions are stored as
integer pixel coordinates, exactly as the source converts them with
`int(x * width)` / `int(y * height)`.  The arm-extension history stores
the squared elbow–wrist pixel distance; the source's
`np.sqrt`-comparison is modelled exactly by `sqrtDiffGt` below. -/

/-- One pose landmark: normalized coordinates and a visibility score. -/
structure Landmark where
  x : ℚ
  y : ℚ
  visibility : ℚ
deriving DecidableEq, Repr

/-- The six landmark slots the detector reads from the MediaPipe
dictionary; an absent key is `none`. -/
structure PoseLandmarks where
  left_wrist : Option Landmark
  right_wrist : Option Landmark
  left_elbow : Option Landmark
  right_elbow : Option Landmark
  left_shoulder : Option Landmark
  right_shoulder : Option Landmark
deriving DecidableEq, Repr

inductive ArmSide where
  | left
  | right
deriving DecidableEq, Repr

/-- Detector thresholds, as in `ShotDetector.__init__`
(`-0.012`, `0.25`, `0.85`, `0.08`, `0.5`, `0.05`, `90`). -/
def wrist_upward_velocity_threshold : ℚ := -12/1000

def min_wrist_height : ℚ := 25/100

def max_wrist_height : ℚ := 85/100

def elbow_extension_threshold : ℚ := 8/100

def min_confidence : ℚ := 5/10

def min_wrist_above_shoulder : ℚ := 5/100

def max_frames_after_release : ℕ := 90

/-- The mutable state of `ShotDetector` (the position deques have
`maxlen = 20`; `arm_extension_history` stores squared pixel
distances). -/
structure ShotDetector where
  wrist_positions : List (ℤ × ℤ)
  elbow_positions : List (ℤ × ℤ)
  shoulder_positions : List (ℤ × ℤ)
  arm_extension_history : List ℕ
  is_shooting : Bool
  shot_detected : Bool
  frames_since_release : ℕ
  shooting_arm : Option ArmSide
deriving DecidableEq, Repr

/-- The freshly constructed detector. -/
def ShotDetector.init : ShotDetector :=
  { wrist_positions := [], elbow_positions := [], shoulder_positions := []
    arm_extension_history := [], is_shooting := false, shot_detected := false
    frames_since_release := 0, shooting_arm := none }

/-- `ShotDetector.reset_state`. -/
def ShotDetector.reset_state (d : ShotDetector) : ShotDetector :=
  { d with is_shooting := false, shot_detected := false
           frames_since_release := 0, wrist_positions := []
           elbow_positions := [], shoulder_positions := []
           arm_extension_history := [], shooting_arm := none }

/-- Convert a normalized landmark to pixel coordinates:
`(int(x * width), int(y * height))`. -/
def landmarkToPixel (l : Landmark) (height width : ℕ) : ℤ × ℤ :=
  (pytrunc (l.x * width), pytrunc (l.y * height))

/-- All three joints of one candidate side present with visibility
strictly above `min_confidence`. -/
def tripleConfident (w e s : Option Landmark) : Prop :=
  ∃ wl el sl, w = some wl ∧ e = some el ∧ s = some sl ∧
    min_confidence < wl.visibility ∧ min_confidence < el.visibility ∧
    min_confidence < sl.visibility

instance (w e s : Option Landmark) : Decidable (tripleConfident w e s) :=
  match w, e, s with
  | some wl, some el, some sl =>
    if h : min_confidence < wl.visibility ∧ min_confidence < el.visibility ∧
        min_confidence < sl.visibility then
      isTrue ⟨wl, el, sl, rfl, rfl, rfl, h.1, h.2.1, h.2.2⟩
    else
      isFalse (by
        rintro ⟨a, b, c, h1, h2, h3, h4, h5, h6⟩
        cases h1; cases h2; cases h3
        exact h ⟨h4, h5, h6⟩)
  | none, _, _ => isFalse (by rintro ⟨a, b, c, h1, h2, h3, _⟩; cases h1)
  | some _, none, _ => isFalse (by rintro ⟨a, b, c, h1, h2, h3, _⟩; cases h2)
  | some _, some _, none => isFalse (by rintro ⟨a, b, c, h1, h2, h3, _⟩; cases h3)

/-- `ShotDetector._get_shooting_arm_landmarks`: try the right arm first,
then the left; return pixel positions and the chosen side, or `none`. -/
def get_shooting_arm_landmarks (lm : PoseLandmarks) (height width : ℕ) :
    Option ((ℤ × ℤ) × (ℤ × ℤ) × (ℤ × ℤ) × ArmSide) :=
  if tripleConfident lm.right_wrist lm.right_elbow lm.right_shoulder then
    match lm.right_wrist, lm.right_elbow, lm.right_shoulder with
    | some w, some e, some s =>
      some (landmarkToPixel w height width, landmarkToPixel e height width,
            landmarkToPixel s height width, ArmSide.right)
    | _, _, _ => none
  else if tripleConfident lm.left_wrist lm.left_elbow lm.left_shoulder then
    match lm.left_wrist, lm.left_elbow, lm.left_shoulder with
    | some w, some e, some s =>
      some (landmarkToPixel w height width, landmarkToPixel e height width,
            landmarkToPixel s height width, ArmSide.left)
    | _, _, _ => none
  else none

/-- `ShotDetector._calculate_velocity`: displacement between the oldest
and newest entries divided by the elapsed frame count; `none` with fewer
than 5 samples. -/
def calculate_velocity (positions : List (ℤ × ℤ)) : Option (ℚ × ℚ) :=
  if positions.length < 5 then none
  else
    let dx := (positions.getLastD (0, 0)).1 - (positions.headD (0, 0)).1
    let dy := (positions.getLastD (0, 0)).2 - (positions.headD (0, 0)).2
    let dt := positions.length - 1
    if dt = 0 then none
    else some ((dx : ℚ) / (dt : ℚ), (dy : ℚ) / (dt : ℚ))

/-- Squared elbow–wrist pixel distance (the source stores
`np.sqrt` of this value; all comparisons on it are modelled exactly
through `sqrtDiffGt`). -/
def armExtensionSq (wrist elbow : ℤ × ℤ) : ℕ :=
  ((wrist.1 - elbow.1) ^ 2 + (wrist.2 - elbow.2) ^ 2).toNat

/-- Exact form of the comparison `sqrt R - sqrt E > c` for natural
squared distances `E`, `R` and a nonnegative rational threshold `c`
(see `sqrtDiffGt_iff_real`). -/
def sqrtDiffGt (E R : ℕ) (c : ℚ) : Prop :=
  0 < (R : ℚ) - E - c ^ 2 ∧ 4 * c ^ 2 * E < ((R : ℚ) - E - c ^ 2) ^ 2

instance (E R : ℕ) (c : ℚ) : Decidable (sqrtDiffGt E R c) := by
  unfold sqrtDiffGt; infer_instance

/-- The arm-extension gate of the arming branch:
`arm_extension_history[-1] - arm_extension_history[0] >
elbow_extension_threshold`, on the stored squared distances. -/
def extensionIncrease (hist : List ℕ) : Prop :=
  sqrtDiffGt (hist.headD 0) (hist.getLastD 0) elbow_extension_threshold

instance (hist : List ℕ) : Decidable (extensionIncrease hist) := by
  unfold extensionIncrease; infer_instance

/-- `(normalized_shoulder_y - normalized_wrist_y) > min_wrist_above_shoulder`. -/
def wristAboveShoulder (ny nsy : ℚ) : Prop :=
  min_wrist_above_shoulder < nsy - ny

instance (ny nsy : ℚ) : Decidable (wristAboveShoulder ny nsy) := by
  unfold wristAboveShoulder; infer_instance

/-- The release condition of the `elif` branch: wrist moving downward
beyond `0.005`, or normalized height above `0.95` or below `0.1`, or
wrist no longer above the shoulder by the arming margin. -/
def releaseCondition (vy ny nsy : ℚ) : Prop :=
  1/200 < vy ∨ 19/20 < ny ∨ ny < 1/10 ∨ ¬ wristAboveShoulder ny nsy

instance (vy ny nsy : ℚ) : Decidable (releaseCondition vy ny nsy) := by
  unfold releaseCondition; infer_instance

/-- The five-way guard of the arming (`if`) branch, evaluated on the
state after this frame's samples are appended. -/
def armingGuard (d1 : ShotDetector) (vy ny nsy : ℚ) : Prop :=
  d1.is_shooting = false ∧ vy < wrist_upward_velocity_threshold ∧
    min_wrist_height < ny ∧ ny < max_wrist_height ∧ wristAboveShoulder ny nsy

instance (d1 : ShotDetector) (vy ny nsy : ℚ) :
    Decidable (armingGuard d1 vy ny nsy) := by
  unfold armingGuard; infer_instance

/-- Append this frame's wrist/elbow/shoulder samples and arm extension
to the four bounded histories. -/
def appendObservations (d : ShotDetector) (wpos epos spos : ℤ × ℤ) :
    ShotDetector :=
  { d with
    wrist_positions := dequeAppend 20 d.wrist_positions wpos
    elbow_positions := dequeAppend 20 d.elbow_positions epos
    shoulder_positions := dequeAppend 20 d.shoulder_positions spos
    arm_extension_history :=
      dequeAppend 20 d.arm_extension_history (armExtensionSq wpos epos) }

/-- Result of one `process_frame` call: the new state, whether the shot
callback fired on this frame, and whether `reset_state` ran. -/
structure StepResult where
  state : ShotDetector
  fired : Bool
  didReset : Bool
deriving DecidableEq, Repr

/-- The `if`/`elif` detection block of `process_frame`, given the
already-appended state, the chosen side and the computed velocity and
normalized heights.  Returns the updated state and whether the callback
fired. -/
def detectionStep (d1 : ShotDetector) (side : ArmSide) (vy ny nsy : ℚ) :
    ShotDetector × Bool :=
  if armingGuard d1 vy ny nsy then
    if 5 ≤ d1.arm_extension_history.length then
      if extensionIncrease d1.arm_extension_history then
        ({ d1 with is_shooting := true, shot_detected := false
                   frames_since_release := 0, shooting_arm := some side },
         false)
      else (d1, false)
    else (d1, false)
  else if d1.is_shooting = true ∧ releaseCondition vy ny nsy then
    if d1.shot_detected = false then
      ({ d1 with shot_detected := true }, true)
    else (d1, false)
  else (d1, false)

/-- The trailing `if self.shot_detected` block of `process_frame`:
increment `frames_since_release` and reset once it exceeds the grace
window. -/
def afterBlock (d : ShotDetector) (fired : Bool) : StepResult :=
  if d.shot_detected = true then
    if max_frames_after_release < d.frames_since_release + 1 then
      ⟨({ d with frames_since_release := d.frames_since_release + 1 }).reset_state,
       fired, true⟩
    else ⟨{ d with frames_since_release := d.frames_since_release + 1 },
          fired, false⟩
  else ⟨d, fired, false⟩

/-- The unresolved-landmarks path of `process_frame` (no pose, or no
side confident enough): reset after the grace window, otherwise just
count the frame. -/
def noLandmarkStep (d : ShotDetector) : StepResult :=
  if max_frames_after_release < d.frames_since_release then
    ⟨d.reset_state, false, true⟩
  else
    ⟨{ d with frames_since_release := d.frames_since_release + 1 }, false, false⟩

/-- `ShotDetector.process_frame`.  The frame argument carries the only
data the source reads from it, `(height, width)`; `none` is a `None`
frame. -/
def process_frame (d : ShotDetector) (frame : Option (ℕ × ℕ))
    (lm : Option PoseLandmarks) : StepResult :=
  match frame with
  | none => ⟨d, false, false⟩
  | some (height, width) =>
    match lm with
    | none => noLandmarkStep d
    | some landmarks =>
      match get_shooting_arm_landmarks landmarks height width with
      | none => noLandmarkStep d
      | some (wpos, epos, spos, side) =>
        let d1 := appendObservations d wpos epos spos
        let ny : ℚ := (wpos.2 : ℚ) / (height : ℚ)
        let nsy : ℚ := (spos.2 : ℚ) / (height : ℚ)
        if 7 ≤ d1.wrist_positions.length then
          match calculate_velocity d1.wrist_positions with
          | none => ⟨d1, false, false⟩
          | some v =>
            let p := detectionStep d1 side v.2 ny nsy
            afterBlock p.1 p.2
        else afterBlock d1 false

/-- One frame of input to the detector loop. -/
structure FrameInput where
  frame : Option (ℕ × ℕ)
  landmarks : Option PoseLandmarks
deriving DecidableEq, Repr

/-- Run the detector over a list of frame inputs. -/
def runDetector (d : ShotDetector) : List FrameInput → ShotDetector
  | [] => d
  | i :: rest => runDetector (process_frame d i.frame i.landmarks).state rest

/-- Total number of frames on which the shot callback fired along a
run. -/
def totalFires (d : ShotDetector) : List FrameInput → ℕ
  | [] => 0
  | i :: rest =>
    (if (process_frame d i.frame i.landmarks).fired then 1 else 0) +
      totalFires (process_frame d i.frame i.landmarks).state rest

/-- Number of callback fires up to (and including) the step on which the
first full reset happens. -/
def firesUntilReset (d : ShotDetector) : List FrameInput → ℕ
  | [] => 0
  | i :: rest =>
    (if (process_frame d i.frame i.landmarks).fired then 1 else 0) +
      (if (process_frame d i.frame i.landmarks).didReset then 0
       else firesUntilReset (process_frame d i.frame i.landmarks).state rest)

/-! ## Shot analysis pipeline (`src/session/shot_analyzer.py`,
`src/storage/video_storage.py`, `src/ai/critique_generator.py`)

One background task of `ShotAnalyzer._analyze_shot_sync` is modelled as
a pure function of an environment that records what each external call
(file write, Gemini requests, file move, overlay, metadata write)
returns on this task, where each call may either return a value or
raise. -/

/-- Result of one external call: a returned value or a raised
exception with its message. -/
inductive CallResult (α : Type) where
  | ok (val : α)
  | exn (msg : String)
deriving DecidableEq, Repr

/-- What the external calls made by one analysis task return. -/
structure AnalyzerEnv where
  /-- `VideoStorage.save_video` writer outcome on a nonempty frame
  list (`True` on success, `False` if the writer fails to open). -/
  saveResult : CallResult Bool
  /-- `GeminiClient.analyze_video` response inside
  `CritiqueGenerator.determine_shot_result`. -/
  outcomeResponse : CallResult String
  /-- `GeminiClient.analyze_video` response inside
  `CritiqueGenerator.generate_shot_critique`. -/
  critiqueResponse : CallResult String
  /-- `Path.mkdir` + `shutil.move` when the clip is relocated. -/
  moveResult : CallResult Unit
  /-- `VideoOverlay.add_text_overlay` outcome. -/
  overlayResult : CallResult Bool
  /-- `MetadataManager.add_shot_metadata` outcome. -/
  metadataResult : CallResult Unit
deriving DecidableEq, Repr

/-- `{n:03d}` formatting. -/
def pad3 (n : ℕ) : String :=
  if n < 10 then "00" ++ toString n
  else if n < 100 then "0" ++ toString n
  else toString n

/-- `VideoStorage.get_shot_video_path`:
`data/videos/session_{sid}/shot_{n:03d}_{made|missed}[_with_critique].mp4`. -/
def get_shot_video_path (session_id : String) (shot_number : ℕ)
    (shot_made : Bool) (with_critique : Bool) : String :=
  "data/videos/session_" ++ session_id ++ "/shot_" ++ pad3 shot_number ++
    "_" ++ (if shot_made then "made" else "missed") ++
    (if with_critique then "_with_critique" else "") ++ ".mp4"

/-- `VideoStorage.save_video`: returns `False` immediately on an empty
frame list; otherwise the writer's outcome (which may raise). -/
def save_video {α : Type} (env : AnalyzerEnv) (frames : List α) :
    CallResult Bool :=
  if frames.isEmpty then .ok false else env.saveResult

/-- Substring test (Python's `in` on strings). -/
def containsSub (needle hay : String) : Bool :=
  decide (needle.toList <:+: hay.toList)

/-- `CritiqueGenerator.determine_shot_result`: ask Gemini, parse the
MADE/MISSED answer, and default to `False` (missed) when the answer is
unclear or the call raises. -/
def determine_shot_result (env : AnalyzerEnv) : Bool :=
  match env.outcomeResponse with
  | .exn _ => false
  | .ok response =>
    let response_upper := response.trim.toUpper
    if containsSub "MADE" response_upper &&
        ! containsSub "MISSED" response_upper then true
    else if containsSub "MISSED" response_upper then false
    else false

/-- How the `try` body of `_analyze_shot_sync` ends: the silent `return`
after a failed initial save, an exception reaching the handler (with the
value the local `shot_made` had at that point), or full completion. -/
inductive PipelineOutcome where
  | earlyReturn
  | raised (msg : String) (shot_made : Option Bool)
  | completed (shot_made : Bool) (critique : String) (finalPath : String)
deriving DecidableEq, Repr

/-- Stages 3–5 of the pipeline (critique, overlay, metadata), shared by
every path that leaves stage 2 with a determined outcome and a current
clip path. -/
def pipelineFromCritique (env : AnalyzerEnv) (session_id : String)
    (shot_number : ℕ) (shot_made : Bool) (currentPath : String) :
    PipelineOutcome :=
  match env.critiqueResponse with
  | .exn m => .raised m (some shot_made)
  | .ok critique =>
    let withCritiquePath := get_shot_video_path session_id shot_number shot_made true
    match env.overlayResult with
    | .exn m => .raised m (some shot_made)
    | .ok overlayOk =>
      let finalPath := if overlayOk then withCritiquePath else currentPath
      match env.metadataResult with
      | .exn m => .raised m (some shot_made)
      | .ok _ => .completed shot_made critique finalPath

/-- The `try` body of `_analyze_shot_sync` (stages 1–5). -/
def pipelineBody {α : Type} (env : AnalyzerEnv) (session_id : String)
    (shot_number : ℕ) (frames : List α) (shot_made0 : Option Bool) :
    PipelineOutcome :=
  let temp_shot_made := shot_made0.getD false
  let initialPath := get_shot_video_path session_id shot_number temp_shot_made false
  match save_video env frames with
  | .exn m => .raised m shot_made0
  | .ok false => .earlyReturn
  | .ok true =>
    match shot_made0 with
    | some b => pipelineFromCritique env session_id shot_number b initialPath
    | none =>
      let made := determine_shot_result env
      if made ≠ temp_shot_made then
        match env.moveResult with
        | .exn m => .raised m (some made)
        | .ok _ =>
          pipelineFromCritique env session_id shot_number made
            (get_shot_video_path session_id shot_number made false)
      else pipelineFromCritique env session_id shot_number made initialPath

/-- Observable effects of one task: the completion-callback invocations
`(shot_number, shot_made, critique, video_path)` it performs, and the
shot record it persisted (if it reached stage 5). -/
structure AnalysisResult where
  callbackCalls : List (ℕ × Option Bool × String × Option String)
  savedShot : Option (ℕ × Bool × String × String)
deriving DecidableEq, Repr

/-- `ShotAnalyzer._analyze_shot_sync`: run the body, then invoke the
registered callback once on completion, once with an error text and a
`None` path when an exception reached the handler, and not at all after
the early `return` of a failed initial save. -/
def analyzeShotSync {α : Type} (env : AnalyzerEnv) (session_id : String)
    (shot_number : ℕ) (frames : List α) (shot_made0 : Option Bool)
    (hasCallback : Bool) : AnalysisResult :=
  match pipelineBody env session_id shot_number frames shot_made0 with
  | .earlyReturn => ⟨[], none⟩
  | .raised m sm =>
    ⟨if hasCallback then [(shot_number, sm, "Error: " ++ m, none)] else [], none⟩
  | .completed made critique path =>
    ⟨if hasCallback then [(shot_number, some made, critique, some path)] else [],
     some (shot_number, made, path, critique)⟩

/-! ## Concrete runs of the detector

A short fully-visible right-arm trace on a 100×100 frame that arms the
detector on its seventh frame, and a concrete armed state, used below to
settle the claims about signal timing and the release condition. -/

/-- A pose sample with only the right arm present, full visibility,
wrist at normalized height `wy`, elbow fixed at `(0.5, 0.6)`, shoulder
fixed at `(0.5, 0.5)`. -/
def rightArmSample (wy : ℚ) : PoseLandmarks :=
  { left_wrist := none, left_elbow := none, left_shoulder := none
    right_wrist := some { x := 1/2, y := wy, visibility := 1 }
    right_elbow := some { x := 1/2, y := 3/5, visibility := 1 }
    right_shoulder := some { x := 1/2, y := 1/2, visibility := 1 } }

/-- A 100×100 frame together with `rightArmSample wy`. -/
def armFrame (wy : ℚ) : FrameInput :=
  ⟨some (100, 100), some (rightArmSample wy)⟩

/-- Seven frames of a wrist rising from normalized height `0.60` to
`0.30` in steps of `0.05`: every arming condition holds on the seventh
frame. -/
def armingTrace : List FrameInput :=
  [armFrame (3/5), armFrame (11/20), armFrame (1/2), armFrame (9/20),
   armFrame (2/5), armFrame (7/20), armFrame (3/10)]

/-- A concrete armed detector state: the wrist has risen from pixel row
45 to 20 over the last six frames (100×100 frame), the episode is armed
and the release has not yet been signaled. -/
def armedState : ShotDetector :=
  { wrist_positions := [(50, 45), (50, 40), (50, 35), (50, 30), (50, 25), (50, 20)]
    elbow_positions := [(50, 60), (50, 60), (50, 60), (50, 60), (50, 60), (50, 60)]
    shoulder_positions := [(50, 50), (50, 50), (50, 50), (50, 50), (50, 50), (50, 50)]
    arm_extension_history := [225, 400, 625, 900, 1225, 1600]
    is_shooting := true, shot_detected := false
    frames_since_release := 0, shooting_arm := some ArmSide.right }

/-! ## Structural lemmas about one detector step -/

@[simp] theorem appendObservations_is_shooting (d : ShotDetector) (w e s : ℤ × ℤ) :
    (appendObservations d w e s).is_shooting = d.is_shooting := rfl

@[simp] theorem appendObservations_shot_detected (d : ShotDetector) (w e s : ℤ × ℤ) :
    (appendObservations d w e s).shot_detected = d.shot_detected := rfl

@[simp] theorem appendObservations_frames_since_release (d : ShotDetector) (w e s : ℤ × ℤ) :
    (appendObservations d w e s).frames_since_release = d.frames_since_release := rfl

theorem process_frame_none_frame (d : ShotDetector) (lm : Option PoseLandmarks) :
    process_frame d none lm = ⟨d, false, false⟩ := rfl

theorem process_frame_none_pose (d : ShotDetector) (h w : ℕ) :
    process_frame d (some (h, w)) none = noLandmarkStep d := rfl

theorem process_frame_no_arm (d : ShotDetector) (h w : ℕ) (lms : PoseLandmarks)
    (hga : get_shooting_arm_landmarks lms h w = none) :
    process_frame d (some (h, w)) (some lms) = noLandmarkStep d := by
  unfold process_frame
  dsimp only
  rw [hga]

theorem process_frame_arm (d : ShotDetector) (h w : ℕ) (lms : PoseLandmarks)
    (wp ep sp : ℤ × ℤ) (side : ArmSide)
    (hga : get_shooting_arm_landmarks lms h w = some (wp, ep, sp, side)) :
    process_frame d (some (h, w)) (some lms) =
      (if 7 ≤ (appendObservations d wp ep sp).wrist_positions.length then
        match calculate_velocity (appendObservations d wp ep sp).wrist_positions with
        | none => ⟨appendObservations d wp ep sp, false, false⟩
        | some v =>
          let p := detectionStep (appendObservations d wp ep sp) side v.2
            ((wp.2 : ℚ) / (h : ℚ)) ((sp.2 : ℚ) / (h : ℚ))
          afterBlock p.1 p.2
      else afterBlock (appendObservations d wp ep sp) false) := by
  unfold process_frame
  dsimp only
  rw [hga]

theorem afterBlock_fired (d : ShotDetector) (f : Bool) :
    (afterBlock d f).fired = f := by
  unfold afterBlock
  split_ifs <;> rfl

theorem afterBlock_flags (d : ShotDetector) (f : Bool) :
    ((afterBlock d f).didReset = true ∧ (afterBlock d f).state.is_shooting = false ∧
      (afterBlock d f).state.shot_detected = false) ∨
    ((afterBlock d f).didReset = false ∧ (afterBlock d f).state.is_shooting = d.is_shooting ∧
      (afterBlock d f).state.shot_detected = d.shot_detected) := by
  unfold afterBlock ShotDetector.reset_state
  split_ifs <;> simp_all

theorem noLandmarkStep_fired (d : ShotDetector) :
    (noLandmarkStep d).fired = false := by
  unfold noLandmarkStep
  split_ifs <;> rfl

theorem noLandmarkStep_flags (d : ShotDetector) :
    ((noLandmarkStep d).didReset = true ∧ (noLandmarkStep d).state.is_shooting = false ∧
      (noLandmarkStep d).state.shot_detected = false) ∨
    ((noLandmarkStep d).didReset = false ∧ (noLandmarkStep d).state.is_shooting = d.is_shooting ∧
      (noLandmarkStep d).state.shot_detected = d.shot_detected) := by
  unfold noLandmarkStep ShotDetector.reset_state
  split_ifs <;> simp_all

theorem detectionStep_fired_iff (d1 : ShotDetector) (side : ArmSide) (vy ny nsy : ℚ) :
    (detectionStep d1 side vy ny nsy).2 = true ↔
      d1.is_shooting = true ∧ d1.shot_detected = false ∧ releaseCondition vy ny nsy := by
  unfold detectionStep
  split_ifs with h1 h2 h3 h4 h5 <;>
    simp_all [armingGuard]

theorem detectionStep_armed_flags (d1 : ShotDetector) (side : ArmSide) (vy ny nsy : ℚ)
    (h : d1.is_shooting = true) :
    (detectionStep d1 side vy ny nsy).1.is_shooting = true ∧
    (detectionStep d1 side vy ny nsy).1.shot_detected =
      (d1.shot_detected || (detectionStep d1 side vy ny nsy).2) := by
  unfold detectionStep
  split_ifs with h1 h2 h3 h4 h5 <;>
    simp_all [armingGuard]

theorem detectionStep_arming_iff (d1 : ShotDetector) (side : ArmSide) (vy ny nsy : ℚ)
    (h : d1.is_shooting = false) :
    ((detectionStep d1 side vy ny nsy).1.is_shooting = true ↔
      (armingGuard d1 vy ny nsy ∧ 5 ≤ d1.arm_extension_history.length ∧
        extensionIncrease d1.arm_extension_history)) ∧
    (detectionStep d1 side vy ny nsy).2 = false := by
  unfold detectionStep
  split_ifs with h1 h2 h3 h4 h5 <;>
    simp_all

/-- The callback can fire on a frame only from a state that is armed and
has not yet signaled this episode's release. -/
theorem step_fired_imp (d : ShotDetector) (frame : Option (ℕ × ℕ))
    (lm : Option PoseLandmarks) :
    (process_frame d frame lm).fired = true →
      d.is_shooting = true ∧ d.shot_detected = false := by
  cases frame with
  | none => rw [process_frame_none_frame]; intro hf; cases hf
  | some hw =>
    obtain ⟨hh, ww⟩ := hw
    cases lm with
    | none =>
      rw [process_frame_none_pose]
      rw [noLandmarkStep_fired]
      intro hf; cases hf
    | some lms =>
      cases hga : get_shooting_arm_landmarks lms hh ww with
      | none =>
        rw [process_frame_no_arm d hh ww lms hga, noLandmarkStep_fired]
        intro hf; cases hf
      | some t =>
        obtain ⟨wp, ep, sp, side⟩ := t
        rw [process_frame_arm d hh ww lms wp ep sp side hga]
        split_ifs with h7
        · cases hv : calculate_velocity (appendObservations d wp ep sp).wrist_positions with
          | none => intro hf; cases hf
          | some v =>
            dsimp only
            rw [afterBlock_fired]
            intro hf
            have h := (detectionStep_fired_iff _ side v.2 _ _).mp hf
            constructor
            · have := h.1; simpa using this
            · have := h.2.1; simpa using this
        · rw [afterBlock_fired]
          intro hf; cases hf

/-- One step from an armed state: a fire implies the release had not
been signaled yet, and in the absence of a full reset the state stays
armed and the signaled flag accumulates the fire. -/
theorem step_armed (d : ShotDetector) (frame : Option (ℕ × ℕ))
    (lm : Option PoseLandmarks) (hs : d.is_shooting = true) :
    ((process_frame d frame lm).fired = true → d.shot_detected = false) ∧
    ((process_frame d frame lm).didReset = false →
      (process_frame d frame lm).state.is_shooting = true ∧
      (process_frame d frame lm).state.shot_detected =
        (d.shot_detected || (process_frame d frame lm).fired)) := by
  refine ⟨fun hf => (step_fired_imp d frame lm hf).2, ?_⟩
  cases frame with
  | none => rw [process_frame_none_frame]; intro _; simpa using hs
  | some hw =>
    obtain ⟨hh, ww⟩ := hw
    cases lm with
    | none =>
      rw [process_frame_none_pose]
      rcases noLandmarkStep_flags d with ⟨h1, _, _⟩ | ⟨h1, h2, h3⟩
      · intro hr; rw [h1] at hr; cases hr
      · intro _
        rw [noLandmarkStep_fired]
        refine ⟨by rw [h2, hs], by rw [h3]; simp⟩
    | some lms =>
      cases hga : get_shooting_arm_landmarks lms hh ww with
      | none =>
        rw [process_frame_no_arm d hh ww lms hga]
        rcases noLandmarkStep_flags d with ⟨h1, _, _⟩ | ⟨h1, h2, h3⟩
        · intro hr; rw [h1] at hr; cases hr
        · intro _
          rw [noLandmarkStep_fired]
          refine ⟨by rw [h2, hs], by rw [h3]; simp⟩
      | some t =>
        obtain ⟨wp, ep, sp, side⟩ := t
        rw [process_frame_arm d hh ww lms wp ep sp side hga]
        split_ifs with h7
        · cases hv : calculate_velocity (appendObservations d wp ep sp).wrist_positions with
          | none => intro _; simpa using hs
          | some v =>
            dsimp only
            set p := detectionStep (appendObservations d wp ep sp) side v.2
              ((wp.2 : ℚ) / (hh : ℚ)) ((sp.2 : ℚ) / (hh : ℚ)) with hp
            have hd1 : (appendObservations d wp ep sp).is_shooting = true := by simpa using hs
            have hflags := detectionStep_armed_flags (appendObservations d wp ep sp) side v.2
              ((wp.2 : ℚ) / (hh : ℚ)) ((sp.2 : ℚ) / (hh : ℚ)) hd1
            rcases afterBlock_flags p.1 p.2 with ⟨h1, _, _⟩ | ⟨h1, h2, h3⟩
            · intro hr; rw [h1] at hr; cases hr
            · intro _
              rw [afterBlock_fired]
              refine ⟨by rw [h2]; exact hflags.1, ?_⟩
              rw [h3, hflags.2]
              simp
        · rcases afterBlock_flags (appendObservations d wp ep sp) false with ⟨h1, _, _⟩ | ⟨h1, h2, h3⟩
          · intro hr; rw [h1] at hr; cases hr
          · intro _
            rw [afterBlock_fired]
            refine ⟨by rw [h2]; simpa using hs, ?_⟩
            rw [h3]
            simp

/-- Once the release has been signaled, no further fire happens before
the next full reset. -/
theorem firesUntilReset_zero (inputs : List FrameInput) :
    ∀ d : ShotDetector, d.is_shooting = true → d.shot_detected = true →
      firesUntilReset d inputs = 0 := by
  induction inputs with
  | nil => intro d _ _; rfl
  | cons i rest ih =>
    intro d hs hd
    unfold firesUntilReset
    have hstep := step_armed d i.frame i.landmarks hs
    have hf : (process_frame d i.frame i.landmarks).fired = false := by
      cases hfv : (process_frame d i.frame i.landmarks).fired
      · rfl
      · have := hstep.1 hfv
        rw [this] at hd; cases hd
    rw [hf]
    cases hr : (process_frame d i.frame i.landmarks).didReset
    · have hpost := hstep.2 hr
      have hz := ih (process_frame d i.frame i.landmarks).state hpost.1
        (by rw [hpost.2, hd]; simp)
      simp [hr, hz]
    · simp [hr]

/-- From an armed state, the callback fires at most once before the next
full reset. -/
theorem firesUntilReset_le_one (inputs : List FrameInput) :
    ∀ d : ShotDetector, d.is_shooting = true → firesUntilReset d inputs ≤ 1 := by
  induction inputs with
  | nil => intro d _; simp [firesUntilReset]
  | cons i rest ih =>
    intro d hs
    unfold firesUntilReset
    have hstep := step_armed d i.frame i.landmarks hs
    cases hr : (process_frame d i.frame i.landmarks).didReset
    · have hpost := hstep.2 hr
      cases hf : (process_frame d i.frame i.landmarks).fired
      · have := ih _ hpost.1
        simpa using this
      · have hz := firesUntilReset_zero rest _ hpost.1 (by rw [hpost.2, hf]; simp)
        simp [hf, hr, hz]
    · simp only [hr]
      split <;> simp

/-- Claim C6: for every armed episode, the event-end signal is emitted
at most once between the event start and the next full reset; once the
already-signaled flag (`shot_detected`) is set, further frames
satisfying the cooldown condition cause no additional emission. -/
theorem C6_event_end_at_most_once_per_episode (d : ShotDetector)
    (inputs : List FrameInput) (hs : d.is_shooting = true) :
    firesUntilReset d inputs ≤ 1 ∧
    (d.shot_detected = true → firesUntilReset d inputs = 0) :=
  ⟨firesUntilReset_le_one inputs d hs,
   fun hd => firesUntilReset_zero inputs d hs hd⟩

/-- Witness for C6 at a concrete armed state and input trace (the first
frame of the trace satisfies the release condition, the later ones would
as well). -/
theorem C6_witness :
    armedState.is_shooting = true ∧
    (firesUntilReset armedState [armFrame (1/2), armFrame (1/2)] ≤ 1 ∧
      (armedState.shot_detected = true →
        firesUntilReset armedState [armFrame (1/2), armFrame (1/2)] = 0)) :=
  ⟨by decide,
   C6_event_end_at_most_once_per_episode armedState
     [armFrame (1/2), armFrame (1/2)] (by decide)⟩

/-- Counterexample to claim C1 as stated: on the seventh frame of
`armingTrace` the detector makes the Idle→Armed transition
(`is_shooting` flips from `false` to `true`), yet no event-start signal
is delivered to the caller on that frame — or on any frame of the
trace. -/
theorem C1_counterexample :
    (runDetector ShotDetector.init (armingTrace.take 6)).is_shooting = false ∧
    (runDetector ShotDetector.init armingTrace).is_shooting = true ∧
    totalFires ShotDetector.init armingTrace = 0 := by
  decide

/-- Claim C1 (amended): the detector's single callback signal is never
emitted at the Idle→Armed transition; it can only fire from a state that
is already armed and not yet signaled (the release-confirmation
transition into cooldown), so active recording — started by the signal
handler and seeded from the rolling pre-roll — begins at release
confirmation rather than at arm time. -/
theorem C1_signal_at_release_not_at_arming (d : ShotDetector)
    (frame : Option (ℕ × ℕ)) (lm : Option PoseLandmarks) :
    ((process_frame d frame lm).fired = true →
      d.is_shooting = true ∧ d.shot_detected = false) ∧
    (d.is_shooting = false → (process_frame d frame lm).fired = false) :=
  ⟨step_fired_imp d frame lm, fun h0 => by
    cases hf : (process_frame d frame lm).fired
    · rfl
    · have := (step_fired_imp d frame lm hf).1
      rw [h0] at this
      cases this⟩

/-- Witness for the amended C1 at a concrete not-armed state. -/
theorem C1_witness :
    ShotDetector.init.is_shooting = false ∧
    (process_frame ShotDetector.init (some (100, 100))
      (some (rightArmSample (3/10)))).fired = false :=
  ⟨by decide,
   (C1_signal_at_release_not_at_arming ShotDetector.init (some (100, 100))
     (some (rightArmSample (3/10)))).2 (by decide)⟩

/-! ## Arming conditions (claim C3) and release condition (claim C7) -/

/-- The tracked side's three joints are present with confidence above
the minimum threshold. -/
def sideConfident (lms : PoseLandmarks) : ArmSide → Prop
  | .right => tripleConfident lms.right_wrist lms.right_elbow lms.right_shoulder
  | .left => tripleConfident lms.left_wrist lms.left_elbow lms.left_shoulder

/-- The arming conditions of the `Idle→Armed` transition, on the state
after this frame's samples were appended: sufficient history, upward
windowed velocity beyond the strictness threshold, normalized wrist
height strictly inside the valid band, wrist above the shoulder by more
than the margin, and arm extension increased over the window by more
than the extension threshold. -/
def armingConditions (d1 : ShotDetector) (height : ℕ) (wpos spos : ℤ × ℤ) : Prop :=
  7 ≤ d1.wrist_positions.length ∧
  ∃ v, calculate_velocity d1.wrist_positions = some v ∧
    v.2 < wrist_upward_velocity_threshold ∧
    min_wrist_height < (wpos.2 : ℚ) / (height : ℚ) ∧
    (wpos.2 : ℚ) / (height : ℚ) < max_wrist_height ∧
    wristAboveShoulder ((wpos.2 : ℚ) / (height : ℚ)) ((spos.2 : ℚ) / (height : ℚ)) ∧
    5 ≤ d1.arm_extension_history.length ∧
    extensionIncrease d1.arm_extension_history

/-- A possibly-absent landmark whose visibility, when present, is at or
below the confidence threshold. -/
def lowLandmark (ol : Option Landmark) : Prop :=
  ∀ l, ol = some l → l.visibility ≤ min_confidence

/-- Every joint the detector reads has confidence at or below the
threshold. -/
def allLowConfidence (lms : PoseLandmarks) : Prop :=
  lowLandmark lms.left_wrist ∧ lowLandmark lms.right_wrist ∧
  lowLandmark lms.left_elbow ∧ lowLandmark lms.right_elbow ∧
  lowLandmark lms.left_shoulder ∧ lowLandmark lms.right_shoulder

/-- A frame input whose pose data, if any, is entirely low-confidence. -/
def lowConfInput (i : FrameInput) : Prop :=
  ∀ lms, i.landmarks = some lms → allLowConfidence lms

theorem get_shooting_arm_landmarks_of_low (lms : PoseLandmarks) (h w : ℕ)
    (hlow : allLowConfidence lms) :
    get_shooting_arm_landmarks lms h w = none := by
  unfold get_shooting_arm_landmarks
  split_ifs with h1 h2
  · exfalso
    obtain ⟨wl, el, sl, hw1, _, _, hv, _, _⟩ := h1
    have := hlow.2.1 wl hw1
    unfold min_confidence at hv this
    linarith
  · exfalso
    obtain ⟨wl, el, sl, hw1, _, _, hv, _, _⟩ := h2
    have := hlow.1 wl hw1
    unfold min_confidence at hv this
    linarith
  · rfl

theorem get_shooting_arm_landmarks_confident (lms : PoseLandmarks) (h w : ℕ)
    (wp ep sp : ℤ × ℤ) (side : ArmSide)
    (hga : get_shooting_arm_landmarks lms h w = some (wp, ep, sp, side)) :
    sideConfident lms side := by
  unfold get_shooting_arm_landmarks at hga
  split_ifs at hga with h1 h2
  · obtain ⟨wl, el, sl, hw1, he1, hs1, hv1, hv2, hv3⟩ := h1
    rw [hw1, he1, hs1] at hga
    simp only [Option.some.injEq] at hga
    obtain ⟨_, _, _, hside⟩ := hga
    exact ⟨wl, el, sl, hw1, he1, hs1, hv1, hv2, hv3⟩
  · obtain ⟨wl, el, sl, hw1, he1, hs1, hv1, hv2, hv3⟩ := h2
    rw [hw1, he1, hs1] at hga
    simp only [Option.some.injEq] at hga
    obtain ⟨_, _, _, hside⟩ := hga
    exact ⟨wl, el, sl, hw1, he1, hs1, hv1, hv2, hv3⟩

/-- A transition into the armed state on one frame implies the full
conjunction of arming conditions of the source's `if` branch. -/
theorem step_arming_imp (d : ShotDetector) (frame : Option (ℕ × ℕ))
    (lm : Option PoseLandmarks) (h0 : d.is_shooting = false)
    (hpost : (process_frame d frame lm).state.is_shooting = true) :
    ∃ h w lms wp ep sp side,
      frame = some (h, w) ∧ lm = some lms ∧
      get_shooting_arm_landmarks lms h w = some (wp, ep, sp, side) ∧
      sideConfident lms side ∧
      armingConditions (appendObservations d wp ep sp) h wp sp := by
  cases frame with
  | none =>
    rw [process_frame_none_frame] at hpost
    rw [h0] at hpost; cases hpost
  | some hw =>
    obtain ⟨hh, ww⟩ := hw
    cases lm with
    | none =>
      rw [process_frame_none_pose] at hpost
      rcases noLandmarkStep_flags d with ⟨_, h2, _⟩ | ⟨_, h2, _⟩ <;>
        (rw [h2] at hpost; simp_all)
    | some lms =>
      cases hga : get_shooting_arm_landmarks lms hh ww with
      | none =>
        rw [process_frame_no_arm d hh ww lms hga] at hpost
        rcases noLandmarkStep_flags d with ⟨_, h2, _⟩ | ⟨_, h2, _⟩ <;>
          (rw [h2] at hpost; simp_all)
      | some t =>
        obtain ⟨wp, ep, sp, side⟩ := t
        rw [process_frame_arm d hh ww lms wp ep sp side hga] at hpost
        split_ifs at hpost with h7
        · cases hv : calculate_velocity (appendObservations d wp ep sp).wrist_positions with
          | none =>
            rw [hv] at hpost
            simp only at hpost
            rw [appendObservations_is_shooting, h0] at hpost
            cases hpost
          | some v =>
            rw [hv] at hpost
            dsimp only at hpost
            set d1 := appendObservations d wp ep sp with hd1
            have h0' : d1.is_shooting = false := by
              rw [hd1, appendObservations_is_shooting, h0]
            set p := detectionStep d1 side v.2
              ((wp.2 : ℚ) / (hh : ℚ)) ((sp.2 : ℚ) / (hh : ℚ)) with hp
            have harm : p.1.is_shooting = true := by
              rcases afterBlock_flags p.1 p.2 with ⟨_, h2, _⟩ | ⟨_, h2, _⟩
              · rw [h2] at hpost; cases hpost
              · rw [h2] at hpost; exact hpost
            have hiff := (detectionStep_arming_iff d1 side v.2
              ((wp.2 : ℚ) / (hh : ℚ)) ((sp.2 : ℚ) / (hh : ℚ)) h0').1.mp harm
            refine ⟨hh, ww, lms, wp, ep, sp, side, rfl, rfl, hga,
              get_shooting_arm_landmarks_confident lms hh ww wp ep sp side hga,
              h7, v, hv, ?_, ?_, ?_, ?_, hiff.2.1, hiff.2.2⟩
            · exact hiff.1.2.1
            · exact hiff.1.2.2.1
            · exact hiff.1.2.2.2.1
            · exact hiff.1.2.2.2.2
        · rcases afterBlock_flags (appendObservations d wp ep sp) false with
            ⟨_, h2, _⟩ | ⟨_, h2, _⟩ <;>
            (rw [h2] at hpost; simp_all)

/-- A low-confidence frame leaves an idle detector idle and fires
nothing. -/
theorem step_lowconf (d : ShotDetector) (i : FrameInput)
    (hlow : lowConfInput i) (h1 : d.is_shooting = false)
    (h2 : d.shot_detected = false) :
    (process_frame d i.frame i.landmarks).fired = false ∧
    (process_frame d i.frame i.landmarks).state.is_shooting = false ∧
    (process_frame d i.frame i.landmarks).state.shot_detected = false := by
  cases hfr : i.frame with
  | none => rw [process_frame_none_frame]; exact ⟨rfl, h1, h2⟩
  | some hw =>
    obtain ⟨hh, ww⟩ := hw
    cases hlm : i.landmarks with
    | none =>
      rw [process_frame_none_pose]
      refine ⟨noLandmarkStep_fired d, ?_⟩
      rcases noLandmarkStep_flags d with ⟨_, h3, h4⟩ | ⟨_, h3, h4⟩ <;>
        (rw [h3, h4]; simp_all)
    | some lms =>
      have hga := get_shooting_arm_landmarks_of_low lms hh ww (hlow lms hlm)
      rw [process_frame_no_arm d hh ww lms hga]
      refine ⟨noLandmarkStep_fired d, ?_⟩
      rcases noLandmarkStep_flags d with ⟨_, h3, h4⟩ | ⟨_, h3, h4⟩ <;>
        (rw [h3, h4]; simp_all)

/-- Along any all-low-confidence input sequence, an idle detector never
arms and never fires. -/
theorem lowconf_run (inputs : List FrameInput) :
    ∀ d : ShotDetector, d.is_shooting = false → d.shot_detected = false →
      (∀ i ∈ inputs, lowConfInput i) →
      (runDetector d inputs).is_shooting = false ∧
      (runDetector d inputs).shot_detected = false ∧
      totalFires d inputs = 0 := by
  induction inputs with
  | nil => intro d h1 h2 _; exact ⟨h1, h2, rfl⟩
  | cons i rest ih =>
    intro d h1 h2 hlow
    have hstep := step_lowconf d i (hlow i (by simp)) h1 h2
    have hrest := ih (process_frame d i.frame i.landmarks).state hstep.2.1 hstep.2.2
      (fun j hj => hlow j (by simp [hj]))
    unfold runDetector totalFires
    refine ⟨hrest.1, hrest.2.1, ?_⟩
    rw [hstep.1]
    simpa using hrest.2.2

/-- Claim C3: the detector arms on a frame only if all arming conditions
(confidences, vertical band, upward windowed velocity, wrist-above-
shoulder margin, arm-extension increase) hold; and along any input
sequence whose confidences stay at or below the threshold throughout,
an idle detector stays idle and never emits a signal. -/
theorem C3_arming_conditions_necessary (d : ShotDetector)
    (frame : Option (ℕ × ℕ)) (lm : Option PoseLandmarks)
    (inputs : List FrameInput) (d0 : ShotDetector) :
    (d.is_shooting = false →
      (process_frame d frame lm).state.is_shooting = true →
      ∃ h w lms wp ep sp side,
        frame = some (h, w) ∧ lm = some lms ∧
        get_shooting_arm_landmarks lms h w = some (wp, ep, sp, side) ∧
        sideConfident lms side ∧
        armingConditions (appendObservations d wp ep sp) h wp sp) ∧
    (d0.is_shooting = false → d0.shot_detected = false →
      (∀ i ∈ inputs, lowConfInput i) →
      (runDetector d0 inputs).is_shooting = false ∧ totalFires d0 inputs = 0) :=
  ⟨step_arming_imp d frame lm,
   fun h1 h2 hlow =>
    ⟨(lowconf_run inputs d0 h1 h2 hlow).1, (lowconf_run inputs d0 h1 h2 hlow).2.2⟩⟩

/-- A fully-present pose sample whose six visibilities are all `0.25`,
below the confidence threshold. -/
def lowSample : PoseLandmarks :=
  { left_wrist := some { x := 1/2, y := 1/2, visibility := 1/4 }
    right_wrist := some { x := 1/2, y := 2/5, visibility := 1/4 }
    left_elbow := some { x := 1/2, y := 3/5, visibility := 1/4 }
    right_elbow := some { x := 1/2, y := 3/5, visibility := 1/4 }
    left_shoulder := some { x := 1/2, y := 7/10, visibility := 1/4 }
    right_shoulder := some { x := 1/2, y := 7/10, visibility := 1/4 } }

/-- A 100×100 frame carrying only low-confidence landmarks. -/
def lowFrame : FrameInput := ⟨some (100, 100), some lowSample⟩

theorem lowFrame_lowconf : lowConfInput lowFrame := by
  intro lms hl
  have hlmeq : lms = lowSample := by
    have hl' : (some lowSample : Option PoseLandmarks) = some lms := hl
    injection hl' with h
    exact h.symm
  subst hlmeq
  refine ⟨?_, ?_, ?_, ?_, ?_, ?_⟩ <;>
    (intro l h
     have hl' : l.visibility = 1/4 := by
       cases h
       rfl
     rw [hl']
     unfold min_confidence
     norm_num)

/-- Witness for C3: the seventh frame of `armingTrace` arms the detector
from the state reached after six frames, and the arming conditions hold
there; a one-frame all-low-confidence run from the initial state stays
idle with no fires. -/
theorem C3_witness :
    ((runDetector ShotDetector.init (armingTrace.take 6)).is_shooting = false ∧
      ShotDetector.init.is_shooting = false ∧
      ShotDetector.init.shot_detected = false ∧
      (∀ i ∈ [lowFrame], lowConfInput i)) ∧
    ((∃ h w lms wp ep sp side,
        (some ((100, 100) : ℕ × ℕ) : Option (ℕ × ℕ)) = some (h, w) ∧
        (some (rightArmSample (3/10)) : Option PoseLandmarks) = some lms ∧
        get_shooting_arm_landmarks lms h w = some (wp, ep, sp, side) ∧
        sideConfident lms side ∧
        armingConditions
          (appendObservations (runDetector ShotDetector.init (armingTrace.take 6)) wp ep sp)
          h wp sp) ∧
      ((runDetector ShotDetector.init [lowFrame]).is_shooting = false ∧
        totalFires ShotDetector.init [lowFrame] = 0)) := by
  have hmain := C3_arming_conditions_necessary
    (runDetector ShotDetector.init (armingTrace.take 6))
    (some (100, 100)) (some (rightArmSample (3/10)))
    [lowFrame] ShotDetector.init
  have hlow : ∀ i ∈ [lowFrame], lowConfInput i := by
    intro i hi
    have : i = lowFrame := by simpa using hi
    rw [this]
    exact lowFrame_lowconf
  exact ⟨⟨by decide, by decide, by decide, hlow⟩,
    ⟨hmain.1 (by decide) (by decide), hmain.2 (by decide) (by decide) hlow⟩⟩

theorem afterBlock_of_not_detected (d : ShotDetector) (f : Bool)
    (h : d.shot_detected = false) : afterBlock d f = ⟨d, f, false⟩ := by
  unfold afterBlock
  simp [h]

/-- The valid vertical band of the arming condition,
`min_wrist_height < ny < max_wrist_height` — the band claim C7's
"exits the valid vertical band" clause refers to. -/
def specValidBand (ny : ℚ) : Prop :=
  min_wrist_height < ny ∧ ny < max_wrist_height

instance (ny : ℚ) : Decidable (specValidBand ny) := by
  unfold specValidBand; infer_instance

/-- Counterexample to claim C7 as stated: from a concrete armed state
with sufficient history, a frame whose normalized wrist height `0.2`
lies outside the arming band (so the claimed disjunction holds) causes
no Armed→Cooldown transition — the detector stays armed, because the
code's release test uses the wider `0.1`/`0.95` band. -/
theorem C7_counterexample :
    armedState.is_shooting = true ∧ armedState.shot_detected = false ∧
    get_shooting_arm_landmarks (rightArmSample (1/5)) 100 100 =
      some ((50, 20), (50, 60), (50, 50), ArmSide.right) ∧
    7 ≤ (appendObservations armedState (50, 20) (50, 60) (50, 50)).wrist_positions.length ∧
    ¬ specValidBand (((20 : ℤ) : ℚ) / ((100 : ℕ) : ℚ)) ∧
    (process_frame armedState (some (100, 100)) (some (rightArmSample (1/5)))).fired = false ∧
    (process_frame armedState (some (100, 100)) (some (rightArmSample (1/5)))).state.is_shooting = true ∧
    (process_frame armedState (some (100, 100)) (some (rightArmSample (1/5)))).state.shot_detected = false := by
  decide

/-- Claim C7 (amended): while armed (with the release not yet signaled,
sufficient history depth and a resolvable side), the detector transitions
Armed→Cooldown exactly when the windowed vertical velocity reverses to
downward beyond `0.005`, or the normalized wrist height exits the wider
release band (`> 0.95` or `< 0.1` — not the arming band), or the wrist
is no longer above the shoulder by the arming margin; when none of these
holds it stays armed. -/
theorem C7_release_condition_exact (d : ShotDetector) (h w : ℕ)
    (lms : PoseLandmarks) (wp ep sp : ℤ × ℤ) (side : ArmSide)
    (hga : get_shooting_arm_landmarks lms h w = some (wp, ep, sp, side))
    (hs : d.is_shooting = true) (hd : d.shot_detected = false)
    (h7 : 7 ≤ (appendObservations d wp ep sp).wrist_positions.length)
    (v : ℚ × ℚ)
    (hv : calculate_velocity (appendObservations d wp ep sp).wrist_positions = some v) :
    ((process_frame d (some (h, w)) (some lms)).fired = true ↔
      releaseCondition v.2 ((wp.2 : ℚ) / (h : ℚ)) ((sp.2 : ℚ) / (h : ℚ))) ∧
    (¬ releaseCondition v.2 ((wp.2 : ℚ) / (h : ℚ)) ((sp.2 : ℚ) / (h : ℚ)) →
      (process_frame d (some (h, w)) (some lms)).state = appendObservations d wp ep sp ∧
      (process_frame d (some (h, w)) (some lms)).state.is_shooting = true ∧
      (process_frame d (some (h, w)) (some lms)).state.shot_detected = false) := by
  have heq : process_frame d (some (h, w)) (some lms) =
      afterBlock (detectionStep (appendObservations d wp ep sp) side v.2
        ((wp.2 : ℚ) / (h : ℚ)) ((sp.2 : ℚ) / (h : ℚ))).1
        (detectionStep (appendObservations d wp ep sp) side v.2
        ((wp.2 : ℚ) / (h : ℚ)) ((sp.2 : ℚ) / (h : ℚ))).2 := by
    rw [process_frame_arm d h w lms wp ep sp side hga]
    rw [if_pos h7, hv]
  set d1 := appendObservations d wp ep sp with hd1
  have hs1 : d1.is_shooting = true := by rw [hd1, appendObservations_is_shooting, hs]
  have hdd1 : d1.shot_detected = false := by rw [hd1, appendObservations_shot_detected, hd]
  set p := detectionStep d1 side v.2 ((wp.2 : ℚ) / (h : ℚ)) ((sp.2 : ℚ) / (h : ℚ)) with hp
  have hfired : (process_frame d (some (h, w)) (some lms)).fired = p.2 := by
    rw [heq, afterBlock_fired]
  have hiff : p.2 = true ↔
      releaseCondition v.2 ((wp.2 : ℚ) / (h : ℚ)) ((sp.2 : ℚ) / (h : ℚ)) := by
    rw [hp, detectionStep_fired_iff]
    constructor
    · exact fun hc => hc.2.2
    · exact fun hc => ⟨hs1, hdd1, hc⟩
  constructor
  · rw [hfired]; exact hiff
  · intro hnot
    have hpf : p.2 = false := by
      cases hpv : p.2
      · rfl
      · exact absurd (hiff.mp hpv) hnot
    have hstate : p.1 = d1 := by
      rw [hp]
      unfold detectionStep
      have hng : ¬ armingGuard d1 v.2 ((wp.2 : ℚ) / (h : ℚ)) ((sp.2 : ℚ) / (h : ℚ)) := by
        intro hg
        rw [hg.1] at hs1
        cases hs1
      rw [if_neg hng]
      have : ¬ (d1.is_shooting = true ∧
          releaseCondition v.2 ((wp.2 : ℚ) / (h : ℚ)) ((sp.2 : ℚ) / (h : ℚ))) := by
        intro hc
        exact hnot hc.2
      rw [if_neg this]
    have hfin : afterBlock p.1 p.2 = ⟨p.1, p.2, false⟩ :=
      afterBlock_of_not_detected p.1 p.2 (by rw [hstate]; exact hdd1)
    refine ⟨?_, ?_, ?_⟩
    · rw [heq, hfin, hstate]
    · rw [heq, hfin]
      simp only
      rw [hstate, hs1]
    · rw [heq, hfin]
      simp only
      rw [hstate, hdd1]

/-- Witness for the amended C7 at a concrete armed state and a frame on
which the wrist's windowed velocity has turned downward. -/
theorem C7_witness :
    (armedState.is_shooting = true ∧ armedState.shot_detected = false ∧
      get_shooting_arm_landmarks (rightArmSample (1/2)) 100 100 =
        some ((50, 50), (50, 60), (50, 50), ArmSide.right) ∧
      7 ≤ (appendObservations armedState (50, 50) (50, 60) (50, 50)).wrist_positions.length ∧
      calculate_velocity
        (appendObservations armedState (50, 50) (50, 60) (50, 50)).wrist_positions =
        some ((0 : ℚ), (5/6 : ℚ))) ∧
    ((process_frame armedState (some (100, 100)) (some (rightArmSample (1/2)))).fired = true ↔
      releaseCondition (((0 : ℚ), (5/6 : ℚ)) : ℚ × ℚ).2
        ((((50, 50) : ℤ × ℤ).2 : ℚ) / ((100 : ℕ) : ℚ))
        ((((50, 50) : ℤ × ℤ).2 : ℚ) / ((100 : ℕ) : ℚ))) :=
  ⟨⟨by decide, by decide, by decide, by decide, by decide⟩,
   (C7_release_condition_exact armedState 100 100 (rightArmSample (1/2))
     (50, 50) (50, 60) (50, 50) ArmSide.right (by decide) (by decide)
     (by decide) (by decide) ((0 : ℚ), (5/6 : ℚ)) (by decide)).1⟩

/-! ## Recorder and metadata claims -/

theorem foldl_add_recording_frames {α : Type} (ks : List α) :
    ∀ s : VideoRecorder α, s.is_recording = true →
      ((ks.foldl (fun t f => t.add_recording_frame (some f)) s).current_video_frames =
        s.current_video_frames ++ ks ∧
       (ks.foldl (fun t f => t.add_recording_frame (some f)) s).is_recording = true) := by
  induction ks with
  | nil => intro s h; exact ⟨by simp, h⟩
  | cons k rest ih =>
    intro s h
    simp only [List.foldl_cons]
    have hstep : s.add_recording_frame (some k) =
        { s with current_video_frames := s.current_video_frames ++ [k] } := by
      unfold VideoRecorder.add_recording_frame
      simp [h]
    rw [hstep]
    have hrec := ih { s with current_video_frames := s.current_video_frames ++ [k] }
      (by simpa using h)
    refine ⟨?_, hrec.2⟩
    rw [hrec.1]
    simp

set_option maxRecDepth 4000 in
/-- Claim C4: after `start_recording`, appending `k` frames and calling
`stop_recording` returns exactly the begin-time ring snapshot followed
by those `k` frames in order (with `k = 0`, exactly the snapshot); in
the concrete capacity-90 scenario with 90 observed frames and 30
appends, exactly 120 frames are returned whose first 90 are the
pre-trigger ring. -/
theorem C4_stop_recording_contents {α : Type} (r : VideoRecorder α) (ks : List α) :
    (((ks.foldl (fun t f => t.add_recording_frame (some f))
        r.start_recording).stop_recording).1 = r.frame_buffer ++ ks) ∧
    (let r0 := VideoRecorder.init ℕ 3 30
     let observed := (List.range 90).foldl (fun s i => s.add_frame (some i)) r0
     let r2 := (List.range' 90 30).foldl (fun s i => s.add_recording_frame (some i))
       observed.start_recording
     (r2.stop_recording).1.length = 120 ∧
     (r2.stop_recording).1.take 90 = observed.frame_buffer ∧
     observed.frame_buffer = List.range 90) := by
  constructor
  · have h := foldl_add_recording_frames ks r.start_recording rfl
    unfold VideoRecorder.stop_recording
    rw [h.1]
    rfl
  · exact ⟨by decide, by decide, by decide⟩

/-- Claim C5: over any operation sequence from a fresh recorder the ring
never exceeds its configured capacity `int(buffer_seconds * fps)`, and
appending to a full ring evicts exactly the oldest frame (FIFO). -/
theorem C5_ring_bounded_fifo {α : Type} (buffer_seconds : ℚ) (fps : ℕ)
    (ops : List (RecorderOp α)) (r : VideoRecorder α) (x : α) :
    (((VideoRecorder.init α buffer_seconds fps).runOps ops).frame_buffer.length ≤
      (pytrunc (buffer_seconds * fps)).toNat) ∧
    (r.frame_buffer.length = r.buffer_size → 0 < r.buffer_size →
      (r.add_frame (some x)).frame_buffer = r.frame_buffer.tail ++ [x]) := by
  constructor
  · have key : ∀ (l : List (RecorderOp α)) (s : VideoRecorder α),
        s.frame_buffer.length ≤ s.buffer_size →
        ((s.runOps l).frame_buffer.length ≤ (s.runOps l).buffer_size ∧
         (s.runOps l).buffer_size = s.buffer_size) := by
      intro l
      induction l with
      | nil => intro s h; exact ⟨h, rfl⟩
      | cons op rest ih =>
        intro s h
        simp only [VideoRecorder.runOps]
        have hstep : (s.applyOp op).frame_buffer.length ≤ (s.applyOp op).buffer_size ∧
            (s.applyOp op).buffer_size = s.buffer_size := by
          cases op with
          | observe f =>
            cases f with
            | none => exact ⟨h, rfl⟩
            | some x =>
              refine ⟨?_, rfl⟩
              simpa [VideoRecorder.applyOp, VideoRecorder.add_frame] using
                dequeAppend_length_le s.buffer_size s.frame_buffer x
          | beginRec => exact ⟨h, rfl⟩
          | appendActive f =>
            cases f with
            | none => exact ⟨h, rfl⟩
            | some x =>
              simp only [VideoRecorder.applyOp, VideoRecorder.add_recording_frame]
              split_ifs <;> exact ⟨h, rfl⟩
          | endRec => exact ⟨h, rfl⟩
        have := ih (s.applyOp op) hstep.1
        exact ⟨this.1, by rw [this.2, hstep.2]⟩
    have := key ops (VideoRecorder.init α buffer_seconds fps) (by simp [VideoRecorder.init])
    rw [this.2] at this
    exact this.1
  · intro hfull hpos
    unfold VideoRecorder.add_frame
    simp only
    rw [dequeAppend_full r.buffer_size r.frame_buffer x hfull hpos]

/-- A concrete full capacity-3 ring. -/
def fullRecorder : VideoRecorder ℕ :=
  { buffer_size := 3, frame_buffer := [10, 11, 12], is_recording := false,
    current_video_frames := [] }

/-- Witness for C5's FIFO clause on a concrete full ring. -/
theorem C5_witness :
    (fullRecorder.frame_buffer.length = fullRecorder.buffer_size ∧
      0 < fullRecorder.buffer_size) ∧
    (fullRecorder.add_frame (some 13)).frame_buffer =
      fullRecorder.frame_buffer.tail ++ [13] :=
  ⟨⟨by decide, by decide⟩,
   (C5_ring_bounded_fifo 3 30 ([] : List (RecorderOp ℕ)) fullRecorder 13).2
     (by decide) (by decide)⟩

/-- Claim C10: `add_recording_frame` is a no-op when no recording is
active, and a `None` frame is a no-op even while recording — neither the
active list nor the pre-roll ring changes. -/
theorem C10_add_recording_frame_noop {α : Type} (r : VideoRecorder α)
    (f : Option α) :
    (r.is_recording = false → r.add_recording_frame f = r) ∧
    r.add_recording_frame none = r := by
  constructor
  · intro h
    cases f with
    | none => rfl
    | some x =>
      unfold VideoRecorder.add_recording_frame
      simp [h]
  · rfl

/-- Witness for C10 on a concrete idle recorder. -/
theorem C10_witness :
    fullRecorder.is_recording = false ∧
    fullRecorder.add_recording_frame (some 99) = fullRecorder :=
  ⟨by decide, (C10_add_recording_frame_noop fullRecorder (some 99)).1 (by decide)⟩

/-- Claim C9: after every `add_shot_metadata` call the stored counters
are consistent with the appended shot list: `total_shots` is the list
length, `shots_made` counts the shots with `shot_made` true, and
`shots_made + shots_missed = total_shots`. -/
theorem C9_metadata_counters_consistent (existing : Option SessionMetadata)
    (shot_number : ℕ) (shot_made : Bool) (video_path critique : String) :
    (add_shot_metadata existing shot_number shot_made video_path critique).total_shots =
      (add_shot_metadata existing shot_number shot_made video_path critique).shots.length ∧
    (add_shot_metadata existing shot_number shot_made video_path critique).shots_made =
      countMade (add_shot_metadata existing shot_number shot_made video_path critique).shots ∧
    (add_shot_metadata existing shot_number shot_made video_path critique).shots_made +
      (add_shot_metadata existing shot_number shot_made video_path critique).shots_missed =
      (add_shot_metadata existing shot_number shot_made video_path critique).total_shots := by
  unfold add_shot_metadata
  refine ⟨rfl, rfl, ?_⟩
  simp only
  have hle : countMade ((existing.getD create_session_metadata).shots ++
      [({ shot_number := shot_number, shot_made := shot_made,
          video_path := video_path, critique := critique } : ShotData)]) ≤
      ((existing.getD create_session_metadata).shots ++
      [({ shot_number := shot_number, shot_made := shot_made,
          video_path := video_path, critique := critique } : ShotData)]).length :=
    List.length_filter_le _ _
  omega

/-! ## Analyzer pipeline claims -/

theorem pipelineFromCritique_ne_early (env : AnalyzerEnv) (sid : String)
    (n : ℕ) (made : Bool) (path : String) :
    pipelineFromCritique env sid n made path ≠ .earlyReturn := by
  unfold pipelineFromCritique
  cases env.critiqueResponse with
  | exn m => simp
  | ok c =>
    cases env.overlayResult with
    | exn m => simp
    | ok b =>
      cases env.metadataResult with
      | exn m => simp
      | ok u => simp

/-- The `try` body ends in the silent early return exactly when the
initial video save returns failure. -/
theorem pipelineBody_early_iff {α : Type} (env : AnalyzerEnv) (sid : String)
    (n : ℕ) (frames : List α) (sm0 : Option Bool) :
    pipelineBody env sid n frames sm0 = .earlyReturn ↔
      save_video env frames = .ok false := by
  unfold pipelineBody
  cases hsv : save_video env frames with
  | exn m => simp
  | ok b =>
    cases b with
    | false => simp
    | true =>
      simp only
      constructor
      · intro hbody
        exfalso
        cases sm0 with
        | some bb => exact pipelineFromCritique_ne_early env sid n bb _ (by simpa using hbody)
        | none =>
          rcases hif : (decide (¬ determine_shot_result env = (none : Option Bool).getD false)) with _ | _
          · simp only at hbody
            rw [if_neg (by simpa using hif)] at hbody
            exact pipelineFromCritique_ne_early env sid n _ _ hbody
          · simp only at hbody
            rw [if_pos (by simpa using hif)] at hbody
            cases hm : env.moveResult with
            | exn m => rw [hm] at hbody; cases hbody
            | ok u =>
              rw [hm] at hbody
              exact pipelineFromCritique_ne_early env sid n _ _ hbody
      · intro hfalse
        cases hfalse

/-- Claim C2 (amended): with a callback registered, each task invokes it
exactly once when the body completes or an exception reaches the
handler, and zero times when the initial video save fails; every
invocation carries the task's own shot number. -/
theorem C2_callback_count (env : AnalyzerEnv) (sid : String) (n : ℕ)
    (frames : List ℕ) (sm0 : Option Bool) :
    (save_video env frames = .ok false →
      (analyzeShotSync env sid n frames sm0 true).callbackCalls.length = 0) ∧
    (save_video env frames ≠ .ok false →
      (analyzeShotSync env sid n frames sm0 true).callbackCalls.length = 1) ∧
    (∀ c ∈ (analyzeShotSync env sid n frames sm0 true).callbackCalls, c.1 = n) := by
  refine ⟨?_, ?_, ?_⟩
  · intro h
    unfold analyzeShotSync
    rw [(pipelineBody_early_iff env sid n frames sm0).mpr h]
    rfl
  · intro h
    unfold analyzeShotSync
    cases hb : pipelineBody env sid n frames sm0 with
    | earlyReturn => exact absurd ((pipelineBody_early_iff env sid n frames sm0).mp hb) h
    | raised m sm => simp
    | completed made critique path => simp
  · intro c hc
    unfold analyzeShotSync at hc
    cases hb : pipelineBody env sid n frames sm0 with
    | earlyReturn => rw [hb] at hc; cases hc
    | raised m sm =>
      rw [hb] at hc
      simp only [if_pos] at hc
      have : c = (n, sm, "Error: " ++ m, none) := by simpa using hc
      rw [this]
    | completed made critique path =>
      rw [hb] at hc
      simp only [if_pos] at hc
      have : c = (n, some made, critique, some path) := by simpa using hc
      rw [this]

/-- An environment in which every external call succeeds except that the
initial video write reports failure. -/
def envSaveFails : AnalyzerEnv :=
  { saveResult := .ok false, outcomeResponse := .ok "MISSED",
    critiqueResponse := .ok "keep your elbow in", moveResult := .ok (),
    overlayResult := .ok true, metadataResult := .ok () }

/-- An environment in which every external call succeeds. -/
def envAllOk : AnalyzerEnv :=
  { saveResult := .ok true, outcomeResponse := .ok "MADE",
    critiqueResponse := .ok "keep your elbow in", moveResult := .ok (),
    overlayResult := .ok true, metadataResult := .ok () }

/-- Counterexample to claim C2 as stated: when persisting the raw
capture video fails, the task invokes the completion callback zero
times, not exactly once — the code path returns silently. -/
theorem C2_counterexample :
    (analyzeShotSync envSaveFails "s" 1 ([7] : List ℕ) none true).callbackCalls.length = 0 ∧
    ¬ (analyzeShotSync envSaveFails "s" 1 ([7] : List ℕ) none true).callbackCalls.length = 1 := by
  decide

/-- Witness for the amended C2 on a concrete fully-succeeding
environment. -/
theorem C2_witness :
    (save_video envAllOk ([7] : List ℕ) ≠ .ok false) ∧
    (analyzeShotSync envAllOk "s" 2 ([7] : List ℕ) none true).callbackCalls.length = 1 :=
  ⟨by decide, (C2_callback_count envAllOk "s" 2 [7] none).2.1 (by decide)⟩

/-- Claim C8: if the outcome-classification collaborator raises, the
task does not abort — the outcome defaults to the missed label, the
remaining stages run, the shot record is persisted, and the callback
fires with a non-null clip path. -/
theorem C8_outcome_failure_degrades (env : AnalyzerEnv) (sid : String)
    (n : ℕ) (frames : List ℕ) (msg critique : String) (overlayOk : Bool)
    (hne : frames ≠ [])
    (hsave : env.saveResult = .ok true)
    (houtcome : env.outcomeResponse = .exn msg)
    (hcrit : env.critiqueResponse = .ok critique)
    (hover : env.overlayResult = .ok overlayOk)
    (hmeta : env.metadataResult = .ok ()) :
    ∃ p : String,
      (analyzeShotSync env sid n frames none true).callbackCalls =
        [(n, some false, critique, some p)] ∧
      (analyzeShotSync env sid n frames none true).savedShot =
        some (n, false, p, critique) := by
  have hisEmpty : frames.isEmpty = false := by
    cases frames with
    | nil => exact absurd rfl hne
    | cons a l => rfl
  have hsv : save_video env frames = .ok true := by
    unfold save_video
    rw [hisEmpty]
    simpa using hsave
  have hdet : determine_shot_result env = false := by
    unfold determine_shot_result
    rw [houtcome]
  have hbody : pipelineBody env sid n frames none =
      pipelineFromCritique env sid n false
        (get_shot_video_path sid n false false) := by
    unfold pipelineBody
    rw [hsv]
    simp only
    rw [hdet]
    simp
  have hfc : pipelineFromCritique env sid n false
      (get_shot_video_path sid n false false) =
      .completed false critique
        (if overlayOk then get_shot_video_path sid n false true
         else get_shot_video_path sid n false false) := by
    unfold pipelineFromCritique
    rw [hcrit, hover, hmeta]
  refine ⟨if overlayOk then get_shot_video_path sid n false true
          else get_shot_video_path sid n false false, ?_, ?_⟩ <;>
    (unfold analyzeShotSync
     rw [hbody, hfc]
     try rfl)

/-- An environment in which the outcome-classification call raises and
everything else succeeds. -/
def envOutcomeRaises : AnalyzerEnv :=
  { saveResult := .ok true, outcomeResponse := .exn "quota exceeded",
    critiqueResponse := .ok "nice arc", moveResult := .ok (),
    overlayResult := .ok true, metadataResult := .ok () }

/-- Witness for C8 on a concrete environment whose outcome call
raises. -/
theorem C8_witness :
    (([7] : List ℕ) ≠ [] ∧ envOutcomeRaises.saveResult = .ok true ∧
      envOutcomeRaises.outcomeResponse = .exn "quota exceeded" ∧
      envOutcomeRaises.critiqueResponse = .ok "nice arc" ∧
      envOutcomeRaises.overlayResult = .ok true ∧
      envOutcomeRaises.metadataResult = .ok ()) ∧
    ∃ p : String,
      (analyzeShotSync envOutcomeRaises "s" 3 ([7] : List ℕ) none true).callbackCalls =
        [(3, some false, "nice arc", some p)] ∧
      (analyzeShotSync envOutcomeRaises "s" 3 ([7] : List ℕ) none true).savedShot =
        some (3, false, p, "nice arc") :=
  ⟨⟨by decide, by decide, by decide, by decide, by decide, by decide⟩,
   C8_outcome_failure_degrades envOutcomeRaises "s" 3 [7] "quota exceeded"
     "nice arc" true (by decide) (by decide) (by decide) (by decide)
     (by decide) (by decide)⟩

/-- `sqrtDiffGt` is exactly the comparison the source performs on real
square roots: `sqrt R - sqrt E > c` for the stored squared distances. -/
theorem sqrtDiffGt_iff_real (E R : ℕ) (c : ℚ) (hc : 0 ≤ c) :
    sqrtDiffGt E R c ↔ (c : ℝ) < Real.sqrt (R : ℝ) - Real.sqrt (E : ℝ) := by
  have he0 : (0 : ℝ) ≤ (E : ℝ) := Nat.cast_nonneg E
  have hr0 : (0 : ℝ) ≤ (R : ℝ) := Nat.cast_nonneg R
  have hc' : (0 : ℝ) ≤ (c : ℝ) := by exact_mod_cast hc
  have hsE := Real.sq_sqrt he0
  have hEnn := Real.sqrt_nonneg (E : ℝ)
  have hRnn := Real.sqrt_nonneg (R : ℝ)
  unfold sqrtDiffGt
  constructor
  · rintro ⟨h1, h2⟩
    have h1' : (0 : ℝ) < (R : ℝ) - (E : ℝ) - (c : ℝ) ^ 2 := by exact_mod_cast h1
    have h2' : 4 * (c : ℝ) ^ 2 * (E : ℝ) < ((R : ℝ) - (E : ℝ) - (c : ℝ) ^ 2) ^ 2 := by
      exact_mod_cast h2
    have hlt : (Real.sqrt (E : ℝ) + (c : ℝ)) ^ 2 < (R : ℝ) := by
      nlinarith [mul_nonneg hc' hEnn]
    have key : Real.sqrt (E : ℝ) + (c : ℝ) < Real.sqrt (R : ℝ) :=
      (Real.lt_sqrt (by positivity)).mpr hlt
    linarith
  · intro h
    have h' : Real.sqrt (E : ℝ) + (c : ℝ) < Real.sqrt (R : ℝ) := by linarith
    have hsq : (Real.sqrt (E : ℝ) + (c : ℝ)) ^ 2 < (R : ℝ) := by
      have hsR := Real.sq_sqrt hr0
      nlinarith
    have h1' : (0 : ℝ) < (R : ℝ) - (E : ℝ) - (c : ℝ) ^ 2 := by
      nlinarith [mul_nonneg hc' hEnn]
    have h2' : 4 * (c : ℝ) ^ 2 * (E : ℝ) < ((R : ℝ) - (E : ℝ) - (c : ℝ) ^ 2) ^ 2 := by
      nlinarith [mul_nonneg hc' hEnn]
    exact ⟨by exact_mod_cast h1', by exact_mod_cast h2'⟩
